import Mathlib

/-!
Shallow embedding of `src/git-diff-analyzer.py`: a command-line tool that
retrieves a git diff, submits it to a primary LLM endpoint, falls back to a
secondary endpoint on failure, and prints the result.

External effects (the git subprocess, the two HTTP APIs, and `print`) are
modelled explicitly: an `Env` supplies the three external calls as oracles
returning either a result or the text of the raised exception, and every
embedded function returns, besides its value, the ordered list of lines it
printed and the ordered trace of external calls it performed.
-/

namespace GitDiffAnalyzer

/-- Python truthiness of a string: `True` iff non-empty. -/
def pyTruthyStr (s : String) : Bool := !s.isEmpty

/-- Python truthiness of an optional string (`None` and `""` are falsy). -/
def pyTruthyOpt (o : Option String) : Bool :=
  match o with
  | none => false
  | some s => !s.isEmpty

/-- Request payload of `self.anthropic.messages.create` (lines 35-42). -/
structure ClaudeRequest where
  model : String
  max_tokens : Nat
  messages : List (String × String)
deriving DecidableEq

/-- Request payload of `openai.ChatCompletion.create` (lines 62-68). -/
structure ChatRequest where
  model : String
  messages : List (String × String)
  max_tokens : Nat
deriving DecidableEq

/-- One external call performed by the program. -/
inductive ExtCall where
  | git : String → ExtCall
  | claude : ClaudeRequest → ExtCall
  | chatgpt : ChatRequest → ExtCall
deriving DecidableEq

/-- The environment: the three external services, each returning either a
normal result or, as `Except.error`, the text of the exception it raised. -/
structure Env where
  checkOutput : String → Except String String
  claudeCreate : ClaudeRequest → Except String String
  chatgptCreate : ChatRequest → Except String String

/-- Result of running a piece of the program: the returned value, the lines
printed (in order), and the external calls performed (in order). -/
structure PyResult (α : Type) where
  ret : α
  printed : List String
  calls : List ExtCall
deriving DecidableEq

/-- State of a `DiffAnalyzer` instance (lines 10-14). -/
structure DiffAnalyzer where
  anthropic_api_key : String
  openai_api_key : Option String

/-- The shell command built on line 20:
`f"git diff {target} -- . ':!package*.json'"`. -/
def diff_command (target : String) : String :=
  "git diff " ++ target ++ " -- . \x27:!package*.json\x27"

/-- `DiffAnalyzer.get_git_diff` (lines 16-25): run the diff command; on a
`CalledProcessError` print the error and return the empty string. -/
def get_git_diff (env : Env) (_self : DiffAnalyzer) (target : String) :
    PyResult String :=
  let cmd := diff_command target
  match env.checkOutput cmd with
  | Except.ok out => ⟨out, [], [ExtCall.git cmd]⟩
  | Except.error e => ⟨"", ["Error getting git diff: " ++ e], [ExtCall.git cmd]⟩

/-- The fixed prompt template of `analyze_with_claude` (lines 29-32), up to
the interpolated `{diff_text}`. -/
def claude_prompt_template : String :=
  "ignoring the changes that were computer-generated, can you estimate how long this took a human to write this code, assuming they appropriately used AI to help them? please go section by section.\n\nHere\x27s the diff to analyze:\n"

/-- The prompt built by `analyze_with_claude` (lines 29-32). -/
def claude_prompt (diff_text : String) : String :=
  claude_prompt_template ++ diff_text

/-- The fixed prompt template of `analyze_with_chatgpt` (lines 56-59), up to
the interpolated `{diff_text}`. -/
def chatgpt_prompt_template : String :=
  "ignoring the changes that were computer-generated, can you estimate how long this took a human to write this code, assuming they appropriately used AI to help them? please go section by section.\n\nHere\x27s the diff to analyze:\n"

/-- The prompt built by `analyze_with_chatgpt` (lines 56-59). -/
def chatgpt_prompt (diff_text : String) : String :=
  chatgpt_prompt_template ++ diff_text

/-- The request submitted by `analyze_with_claude` (lines 35-42). -/
def claudeReq (diff_text : String) : ClaudeRequest :=
  ⟨"claude-3-sonnet-20240229", 1000, [("user", claude_prompt diff_text)]⟩

/-- The request submitted by `analyze_with_chatgpt` (lines 62-68). -/
def chatgptReq (diff_text : String) : ChatRequest :=
  ⟨"gpt-4", [("user", chatgpt_prompt diff_text)], 1000⟩

/-- `DiffAnalyzer.analyze_with_chatgpt` (lines 51-71): guard on a missing
OpenAI key, otherwise call the ChatGPT endpoint and turn any exception into
an inline error string. -/
def analyze_with_chatgpt (env : Env) (self : DiffAnalyzer) (diff_text : String) :
    PyResult String :=
  if pyTruthyOpt self.openai_api_key = false then
    ⟨"OpenAI API key not provided for fallback.", [], []⟩
  else
    match env.chatgptCreate (chatgptReq diff_text) with
    | Except.ok content => ⟨content, [], [ExtCall.chatgpt (chatgptReq diff_text)]⟩
    | Except.error e =>
        ⟨"Error analyzing diff with ChatGPT: " ++ e, [], [ExtCall.chatgpt (chatgptReq diff_text)]⟩

/-- `DiffAnalyzer.analyze_with_claude` (lines 27-49): call the Claude
endpoint; on an exception print it, fall back to ChatGPT when an OpenAI key
is set, otherwise return the error as the analysis text. -/
def analyze_with_claude (env : Env) (self : DiffAnalyzer) (diff_text : String) :
    PyResult String :=
  match env.claudeCreate (claudeReq diff_text) with
  | Except.ok text => ⟨text, [], [ExtCall.claude (claudeReq diff_text)]⟩
  | Except.error e =>
      if pyTruthyOpt self.openai_api_key then
        let r := analyze_with_chatgpt env self diff_text
        ⟨r.ret,
         ["Error with Claude API: " ++ e, "Falling back to ChatGPT..."] ++ r.printed,
         ExtCall.claude (claudeReq diff_text) :: r.calls⟩
      else
        ⟨"Error analyzing diff: " ++ e,
         ["Error with Claude API: " ++ e],
         [ExtCall.claude (claudeReq diff_text)]⟩

/-- Parsed command-line arguments (lines 74-78). `anthropic_key` and
`openai_key` are `none` when neither the flag nor the environment variable
supplies a value. -/
structure Args where
  target : String
  anthropic_key : Option String
  openai_key : Option String

/-- The error printed on a missing Anthropic key (line 81). -/
def missingKeyMsg : String :=
  "Error: Anthropic API key not provided. Set ANTHROPIC_API_KEY environment variable or use --anthropic-key"

/-- The `DiffAnalyzer` constructed on line 84. -/
def analyzerOf (args : Args) : DiffAnalyzer :=
  ⟨args.anthropic_key.getD "", args.openai_key⟩

/-- `main` (lines 73-96): validate the key, get the diff, analyze, print. -/
def main (env : Env) (args : Args) : PyResult Unit :=
  if pyTruthyOpt args.anthropic_key = false then
    ⟨(), [missingKeyMsg], []⟩
  else
    let g := get_git_diff env (analyzerOf args) args.target
    if pyTruthyStr g.ret = false then
      ⟨(), g.printed ++ ["No diff found or error occurred"], g.calls⟩
    else
      let a := analyze_with_claude env (analyzerOf args) g.ret
      ⟨(), g.printed ++ a.printed ++ ["\nAnalysis Results:", "----------------", a.ret],
       g.calls ++ a.calls⟩

/-- `true` for the calls that reach an LLM analysis endpoint. -/
def isAnalysisCall : ExtCall → Bool
  | ExtCall.git _ => false
  | ExtCall.claude _ => true
  | ExtCall.chatgpt _ => true

/-- `true` when the call either is no LLM call or carries `max_tokens = 1000`. -/
def boundedTokens : ExtCall → Bool
  | ExtCall.git _ => true
  | ExtCall.claude r => r.max_tokens == 1000
  | ExtCall.chatgpt r => r.max_tokens == 1000

/-! Concrete environments used by the witnesses. -/

/-- Every external service succeeds. -/
def envAllOk : Env :=
  ⟨fun _ => Except.ok "diff text", fun _ => Except.ok "claude analysis",
   fun _ => Except.ok "gpt analysis"⟩

/-- The git subprocess exits non-zero; the APIs would succeed. -/
def envGitFail : Env :=
  ⟨fun _ => Except.error "Command returned non-zero exit status 128.",
   fun _ => Except.ok "claude analysis", fun _ => Except.ok "gpt analysis"⟩

/-- Git succeeds, the Claude call raises, the ChatGPT call succeeds. -/
def envClaudeFail : Env :=
  ⟨fun _ => Except.ok "diff text", fun _ => Except.error "overloaded",
   fun _ => Except.ok "gpt analysis"⟩

/-- Git succeeds, both LLM calls raise. -/
def envBothFail : Env :=
  ⟨fun _ => Except.ok "diff text", fun _ => Except.error "overloaded",
   fun _ => Except.error "quota exceeded"⟩

/-- Claim C1: if the primary (Anthropic) credential is absent after argument
parsing, `main` prints the specific missing-key error message and returns with
an empty external-call trace: no git subprocess call and no API call is made. -/
theorem C1_missing_key_halts (env : Env) (args : Args)
    (h : args.anthropic_key = none) :
    main env args = ⟨(), [missingKeyMsg], []⟩ := by
  simp [main, pyTruthyOpt, h]

/-- Witness for C1 at a concrete argument vector with no Anthropic key. -/
theorem C1_missing_key_halts_witness :
    (Args.mk "HEAD~1" none (some "sk-o")).anthropic_key = none ∧
    main envAllOk (Args.mk "HEAD~1" none (some "sk-o")) = ⟨(), [missingKeyMsg], []⟩ :=
  ⟨rfl, C1_missing_key_halts envAllOk (Args.mk "HEAD~1" none (some "sk-o")) rfl⟩

/-- Claim C2: for every target, if the git diff subprocess exits non-zero,
`get_git_diff` catches the error and returns the empty string, and the trace
of `main` contains no LLM analysis call. -/
theorem C2_git_failure_no_analysis (env : Env) (self : DiffAnalyzer) (args : Args)
    (e : String)
    (h : env.checkOutput (diff_command args.target) = Except.error e) :
    (get_git_diff env self args.target).ret = "" ∧
    (main env args).calls.all (fun c => !(isAnalysisCall c)) = true := by
  refine ⟨by simp [get_git_diff, h], ?_⟩
  by_cases hk : pyTruthyOpt args.anthropic_key = false
  · simp [main, hk]
  · have hemp : ("" : String).isEmpty = true := rfl
    simp [main, hk, get_git_diff, h, pyTruthyStr, isAnalysisCall, hemp]

/-- Witness for C2: a failing git subprocess with a valid Anthropic key. -/
theorem C2_git_failure_no_analysis_witness :
    envGitFail.checkOutput (diff_command "HEAD~1")
      = Except.error "Command returned non-zero exit status 128." ∧
    ((get_git_diff envGitFail (DiffAnalyzer.mk "sk-a" none) "HEAD~1").ret = "" ∧
     (main envGitFail (Args.mk "HEAD~1" (some "sk-a") none)).calls.all
       (fun c => !(isAnalysisCall c)) = true) :=
  ⟨rfl, C2_git_failure_no_analysis envGitFail (DiffAnalyzer.mk "sk-a" none)
    (Args.mk "HEAD~1" (some "sk-a") none) "Command returned non-zero exit status 128." rfl⟩

/-- Claim C3: if the Claude call raises and an OpenAI key is configured,
`analyze_with_claude` returns the result of `analyze_with_chatgpt` on the same
diff text, the ChatGPT request appears in its call trace, and the ChatGPT
prompt is character-for-character the Claude prompt. -/
theorem C3_fallback_same_prompt (env : Env) (self : DiffAnalyzer)
    (diff_text e : String)
    (hc : env.claudeCreate (claudeReq diff_text) = Except.error e)
    (hk : pyTruthyOpt self.openai_api_key = true) :
    (analyze_with_claude env self diff_text).ret
      = (analyze_with_chatgpt env self diff_text).ret ∧
    ExtCall.chatgpt (chatgptReq diff_text) ∈ (analyze_with_claude env self diff_text).calls ∧
    chatgpt_prompt diff_text = claude_prompt diff_text := by
  refine ⟨by simp [analyze_with_claude, hc, hk], ?_, rfl⟩
  cases hg : env.chatgptCreate (chatgptReq diff_text) with
  | ok content => simp [analyze_with_claude, hc, hk, analyze_with_chatgpt, hg]
  | error e2 => simp [analyze_with_claude, hc, hk, analyze_with_chatgpt, hg]

/-- Witness for C3: a failing Claude call with an OpenAI key present. -/
theorem C3_fallback_same_prompt_witness :
    envClaudeFail.claudeCreate (claudeReq "some diff") = Except.error "overloaded" ∧
    pyTruthyOpt (DiffAnalyzer.mk "sk-a" (some "sk-o")).openai_api_key = true ∧
    ((analyze_with_claude envClaudeFail (DiffAnalyzer.mk "sk-a" (some "sk-o")) "some diff").ret
       = (analyze_with_chatgpt envClaudeFail (DiffAnalyzer.mk "sk-a" (some "sk-o")) "some diff").ret ∧
     ExtCall.chatgpt (chatgptReq "some diff")
       ∈ (analyze_with_claude envClaudeFail (DiffAnalyzer.mk "sk-a" (some "sk-o")) "some diff").calls ∧
     chatgpt_prompt "some diff" = claude_prompt "some diff") :=
  ⟨rfl, rfl, C3_fallback_same_prompt envClaudeFail (DiffAnalyzer.mk "sk-a" (some "sk-o"))
    "some diff" "overloaded" rfl rfl⟩

/-- Claim C4: if the Claude call raises `e` and no OpenAI key is configured,
`analyze_with_claude` returns the string "Error analyzing diff: " followed by
`e`, and `main` prints exactly that string as the final analysis result after
the "Analysis Results" header. -/
theorem C4_primary_error_text (env : Env) (args : Args) (d e : String)
    (hk : pyTruthyOpt args.anthropic_key = true)
    (ho : pyTruthyOpt args.openai_key = false)
    (hg : env.checkOutput (diff_command args.target) = Except.ok d)
    (hd : d.isEmpty = false)
    (hc : env.claudeCreate (claudeReq d) = Except.error e) :
    (analyze_with_claude env (analyzerOf args) d).ret = "Error analyzing diff: " ++ e ∧
    (main env args).printed =
      ["Error with Claude API: " ++ e, "\nAnalysis Results:", "----------------",
       "Error analyzing diff: " ++ e] := by
  have ho2 : pyTruthyOpt (analyzerOf args).openai_api_key = false := ho
  constructor
  · simp [analyze_with_claude, hc, ho2]
  · simp [main, hk, get_git_diff, hg, pyTruthyStr, hd, analyze_with_claude, hc, ho2]

/-- Witness for C4: git yields a non-empty diff, Claude raises, no OpenAI key. -/
theorem C4_primary_error_text_witness :
    pyTruthyOpt (Args.mk "HEAD~1" (some "sk-a") none).anthropic_key = true ∧
    pyTruthyOpt (Args.mk "HEAD~1" (some "sk-a") none).openai_key = false ∧
    envClaudeFail.checkOutput (diff_command "HEAD~1") = Except.ok "diff text" ∧
    ("diff text").isEmpty = false ∧
    envClaudeFail.claudeCreate (claudeReq "diff text") = Except.error "overloaded" ∧
    ((analyze_with_claude envClaudeFail (analyzerOf (Args.mk "HEAD~1" (some "sk-a") none))
        "diff text").ret = "Error analyzing diff: " ++ "overloaded" ∧
     (main envClaudeFail (Args.mk "HEAD~1" (some "sk-a") none)).printed =
       ["Error with Claude API: " ++ "overloaded", "\nAnalysis Results:", "----------------",
        "Error analyzing diff: " ++ "overloaded"]) :=
  ⟨rfl, rfl, rfl, rfl, rfl,
   C4_primary_error_text envClaudeFail (Args.mk "HEAD~1" (some "sk-a") none)
     "diff text" "overloaded" rfl rfl rfl rfl rfl⟩

/-- Claim C5: for every target, the command string handed to the shell by
`get_git_diff` is exactly "git diff " ++ target ++ " -- . \x27:!package*.json\x27",
so the exclusion pattern appears verbatim in every invocation. -/
theorem C5_exclusion_pattern (env : Env) (self : DiffAnalyzer) (target : String) :
    (get_git_diff env self target).calls = [ExtCall.git (diff_command target)] ∧
    diff_command target = "git diff " ++ target ++ " -- . \x27:!package*.json\x27" ∧
    ∃ pre post, diff_command target = pre ++ "\x27:!package*.json\x27" ++ post := by
  refine ⟨?_, rfl, "git diff " ++ target ++ " -- . ", "", ?_⟩
  · cases hg : env.checkOutput (diff_command target) with
    | ok out => simp [get_git_diff, hg]
    | error e => simp [get_git_diff, hg]
  · simp [diff_command, String.append_assoc]

/-- Claim C6: for every diff text, the prompt submitted by each analysis
function is the fixed template with the diff text appended verbatim, and the
request carrying that prompt is the first external call each function makes. -/
theorem C6_prompt_contains_diff (env : Env) (self : DiffAnalyzer) (d : String) :
    claude_prompt d = claude_prompt_template ++ d ∧
    chatgpt_prompt d = chatgpt_prompt_template ++ d ∧
    (claudeReq d).messages = [("user", claude_prompt d)] ∧
    (chatgptReq d).messages = [("user", chatgpt_prompt d)] ∧
    (analyze_with_claude env self d).calls.head? = some (ExtCall.claude (claudeReq d)) := by
  refine ⟨rfl, rfl, rfl, rfl, ?_⟩
  cases hg : env.claudeCreate (claudeReq d) with
  | ok text => simp [analyze_with_claude, hg]
  | error e =>
      by_cases hk : pyTruthyOpt self.openai_api_key = true
      · simp [analyze_with_claude, hg, hk]
      · simp [analyze_with_claude, hg, hk]

/-- Claim C7: when the credential check passes, an empty diff makes `main`
print the no-diff message and stop without the analysis section, while a
non-empty diff makes it print the labeled "Analysis Results" section followed
by the text returned from the analysis call. -/
theorem C7_output_shape (env : Env) (args : Args)
    (hk : pyTruthyOpt args.anthropic_key = true) :
    ((get_git_diff env (analyzerOf args) args.target).ret = "" →
      (main env args).printed =
        (get_git_diff env (analyzerOf args) args.target).printed
          ++ ["No diff found or error occurred"]) ∧
    ((get_git_diff env (analyzerOf args) args.target).ret.isEmpty = false →
      (main env args).printed =
        (get_git_diff env (analyzerOf args) args.target).printed
          ++ (analyze_with_claude env (analyzerOf args)
                (get_git_diff env (analyzerOf args) args.target).ret).printed
          ++ ["\nAnalysis Results:", "----------------",
              (analyze_with_claude env (analyzerOf args)
                (get_git_diff env (analyzerOf args) args.target).ret).ret]) := by
  constructor
  · intro h0
    have hemp : (get_git_diff env (analyzerOf args) args.target).ret.isEmpty = true := by
      rw [h0]
      rfl
    simp [main, hk, pyTruthyStr, hemp]
  · intro h1
    simp [main, hk, pyTruthyStr, h1]

/-- Witness for C7 at a concrete run where the git command fails. -/
theorem C7_output_shape_witness :
    (main envGitFail (Args.mk "HEAD~1" (some "sk-a") none)).printed =
      (get_git_diff envGitFail (analyzerOf (Args.mk "HEAD~1" (some "sk-a") none)) "HEAD~1").printed
        ++ ["No diff found or error occurred"] :=
  (C7_output_shape envGitFail (Args.mk "HEAD~1" (some "sk-a") none) rfl).1 rfl

/-- Claim C8: when an OpenAI key is configured and the ChatGPT call raises
`e`, `analyze_with_chatgpt` returns the inline string "Error analyzing diff
with ChatGPT: " followed by `e`, printing nothing: the fallback failure is
surfaced only as returned text. -/
theorem C8_chatgpt_error_as_text (env : Env) (self : DiffAnalyzer) (d e : String)
    (hk : pyTruthyOpt self.openai_api_key = true)
    (hc : env.chatgptCreate (chatgptReq d) = Except.error e) :
    (analyze_with_chatgpt env self d).ret = "Error analyzing diff with ChatGPT: " ++ e ∧
    (analyze_with_chatgpt env self d).printed = [] := by
  constructor
  · simp [analyze_with_chatgpt, hk, hc]
  · simp [analyze_with_chatgpt, hk, hc]

/-- Witness for C8: a raising ChatGPT call with an OpenAI key present. -/
theorem C8_chatgpt_error_as_text_witness :
    pyTruthyOpt (DiffAnalyzer.mk "sk-a" (some "sk-o")).openai_api_key = true ∧
    envBothFail.chatgptCreate (chatgptReq "diff text") = Except.error "quota exceeded" ∧
    ((analyze_with_chatgpt envBothFail (DiffAnalyzer.mk "sk-a" (some "sk-o")) "diff text").ret
       = "Error analyzing diff with ChatGPT: " ++ "quota exceeded" ∧
     (analyze_with_chatgpt envBothFail (DiffAnalyzer.mk "sk-a" (some "sk-o")) "diff text").printed
       = []) :=
  ⟨rfl, rfl, C8_chatgpt_error_as_text envBothFail (DiffAnalyzer.mk "sk-a" (some "sk-o"))
    "diff text" "quota exceeded" rfl rfl⟩

/-- Call trace of the fallback branch of `analyze_with_claude`: the Claude
request followed by whatever `analyze_with_chatgpt` performs. -/
theorem claude_calls_fallback (env : Env) (self : DiffAnalyzer) (d e : String)
    (hc : env.claudeCreate (claudeReq d) = Except.error e)
    (hk : pyTruthyOpt self.openai_api_key = true) :
    (analyze_with_claude env self d).calls
      = ExtCall.claude (claudeReq d) :: (analyze_with_chatgpt env self d).calls := by
  simp [analyze_with_claude, hc, hk]

/-- Claim C9: every LLM call in the traces of `analyze_with_claude` and
`analyze_with_chatgpt` carries `max_tokens = 1000`, for every diff text. -/
theorem C9_bounded_tokens (env : Env) (self : DiffAnalyzer) (d : String) :
    (analyze_with_claude env self d).calls.all boundedTokens = true ∧
    (analyze_with_chatgpt env self d).calls.all boundedTokens = true := by
  have hreq1 : boundedTokens (ExtCall.claude (claudeReq d)) = true := rfl
  have hreq2 : boundedTokens (ExtCall.chatgpt (chatgptReq d)) = true := rfl
  have hgpt : (analyze_with_chatgpt env self d).calls.all boundedTokens = true := by
    by_cases hk : pyTruthyOpt self.openai_api_key = false
    · simp [analyze_with_chatgpt, hk]
    · cases hg : env.chatgptCreate (chatgptReq d) with
      | ok content => simp [analyze_with_chatgpt, hk, hg, hreq2]
      | error e => simp [analyze_with_chatgpt, hk, hg, hreq2]
  refine ⟨?_, hgpt⟩
  cases hc : env.claudeCreate (claudeReq d) with
  | ok text => simp [analyze_with_claude, hc, hreq1]
  | error e =>
      by_cases hk : pyTruthyOpt self.openai_api_key = true
      · rw [claude_calls_fallback env self d e hc hk, List.all_cons, hreq1, hgpt]
        rfl
      · simp [analyze_with_claude, hc, hk, hreq1]

/-- Claim C10: through the fallback path the missing-key guard of
`analyze_with_chatgpt` is dead code: the fallback in `analyze_with_claude` is
taken only when the OpenAI key is truthy, and under that precondition
`analyze_with_chatgpt` always performs the API call instead of the guard's
early return (which performs none). -/
theorem C10_guard_unreachable (env : Env) (self : DiffAnalyzer) (d : String) :
    (pyTruthyOpt self.openai_api_key = true →
      (analyze_with_chatgpt env self d).calls = [ExtCall.chatgpt (chatgptReq d)]) ∧
    (∀ r, ExtCall.chatgpt r ∈ (analyze_with_claude env self d).calls →
      pyTruthyOpt self.openai_api_key = true) := by
  constructor
  · intro hk
    cases hg : env.chatgptCreate (chatgptReq d) with
    | ok content => simp [analyze_with_chatgpt, hk, hg]
    | error e => simp [analyze_with_chatgpt, hk, hg]
  · intro r hmem
    by_cases hk : pyTruthyOpt self.openai_api_key = true
    · exact hk
    · exfalso
      cases hc : env.claudeCreate (claudeReq d) with
      | ok text => simp [analyze_with_claude, hc] at hmem
      | error e => simp [analyze_with_claude, hc, hk] at hmem

/-- Witness for C10: with an OpenAI key set, the fallback call is performed. -/
theorem C10_guard_unreachable_witness :
    (analyze_with_chatgpt envAllOk (DiffAnalyzer.mk "sk-a" (some "sk-o")) "diff text").calls
      = [ExtCall.chatgpt (chatgptReq "diff text")] :=
  (C10_guard_unreachable envAllOk (DiffAnalyzer.mk "sk-a" (some "sk-o")) "diff text").1 rfl

end GitDiffAnalyzer
